import Mathlib

/-!
Shallow embedding of the route-planning repository's core layer:
the AMap response normalizer (services/amapService.js), the geometry
decoder, and the SQLite-backed route/marker store (server.js database
section).  JavaScript numbers are modelled as `Rat`; a JS value that may
be `NaN` is modelled as `Option Rat` with `none` standing for `NaN`;
a JS object property that may be absent (`undefined`) is modelled as an
`Option` field with `none` for absence.  Errors thrown / promise
rejections are modelled with `Except String`.
-/

namespace RoutePlanner

/-- ASCII digit test, as used by the numeric parsers below. -/
def isDig (c : Char) : Bool := '0' ≤ c && c ≤ '9'

/-- Numeric value of a digit string (most significant first). -/
def digitsToNat (l : List Char) : Nat :=
  l.foldl (fun a c => a * 10 + (c.toNat - 48)) 0

/-- JS whitespace (the common cases) skipped by `parseFloat` / `Number`. -/
def isWs (c : Char) : Bool := c = ' ' || c = '\t' || c = '\n' || c = '\r'

/-- Parse an optional sign; returns (isNegative, rest). -/
def parseSign : List Char → Bool × List Char
  | '-' :: r => (true, r)
  | '+' :: r => (false, r)
  | l => (false, l)

/-- Split leading digits from the rest. -/
def takeDigits (l : List Char) : List Char × List Char :=
  (l.takeWhile isDig, l.dropWhile isDig)

/-- Value of the decimal literal with integer part `ip` and fractional
part `fp`: all digits over `10 ^ |fp|`. -/
def decValue (neg : Bool) (ip fp : List Char) : Rat :=
  let n : Int := digitsToNat (ip ++ fp)
  mkRat (if neg then -n else n) ((10 : Nat) ^ fp.length)

/-- Parse a decimal literal `[+-]?(d+[.d*] | .d+)` as a prefix of the
input; returns the value and the unconsumed rest, or `none` when no
numeric prefix exists.  (Exponent, hex and Infinity forms of JS are not
modelled; the repository's polylines are plain decimals.) -/
def parseDecPrefix (l : List Char) : Option (Rat × List Char) :=
  let (neg, r1) := parseSign l
  let (ip, r2) := takeDigits r1
  match r2 with
  | '.' :: r3 =>
    let (fp, r4) := takeDigits r3
    if ip.isEmpty && fp.isEmpty then none
    else some (decValue neg ip fp, r4)
  | _ => if ip.isEmpty then none else some (decValue neg ip [], r2)

/-- JS `parseFloat`: skip leading whitespace, parse the longest numeric
prefix; `none` models `NaN`. -/
def parseFloatQ (s : String) : Option Rat :=
  match parseDecPrefix (s.toList.dropWhile isWs) with
  | some (v, _) => some v
  | none => none

/-- JS `Number(...)` on a string: trimmed-empty is `0`; otherwise the
whole trimmed string must be a decimal literal, else `NaN` (`none`). -/
def jsNumberQ (s : String) : Option Rat :=
  let t := (s.toList.dropWhile isWs).reverse.dropWhile isWs |>.reverse
  if t.isEmpty then some 0
  else
    match parseDecPrefix t with
    | some (v, []) => some v
    | _ => none

/-- `split` on a single separator character, with JS semantics:
`"".split(c) = [""]`, separators at the ends produce empty pieces. -/
def splitChar (sep : Char) : List Char → List (List Char)
  | [] => [[]]
  | c :: rest =>
    let r := splitChar sep rest
    if c = sep then [] :: r
    else
      match r with
      | h :: t => (c :: h) :: t
      | [] => [[c]]

/-- String-level `split(sep)` (single-character separators only, which
is all the source uses). -/
def jsSplit (s : String) (sep : Char) : List String :=
  (splitChar sep s.toList).map String.mk

/-- JS `String.prototype.trim` (common whitespace). -/
def jsTrim (s : String) : String :=
  String.mk ((s.toList.dropWhile isWs).reverse.dropWhile isWs |>.reverse)

/-- One decoded point of `decodePolyline`: JS produces `[lng, lat]`
where either component may be `NaN` (modelled `none`). -/
abbrev JsPoint := Option Rat × Option Rat

/-- `point.split(',')` then destructure into (lng, lat) and `parseFloat`
each; a missing second component destructures to `undefined`, whose
`parseFloat` is `NaN`.  Extra components are ignored. -/
def decodePoint (pt : String) : JsPoint :=
  let parts := jsSplit pt ','
  (parseFloatQ (parts.getD 0 ""),
   if 2 ≤ parts.length then parseFloatQ (parts.getD 1 "") else none)

/-- `AMapService.decodePolyline`: guard returns `[]` for the empty
string (and for non-string / missing input, outside this model);
otherwise split on `;` and parse each point.  The JS `try/catch` can
never fire (`split` and `parseFloat` do not throw). -/
def decodePolyline (polyline : String) : List JsPoint :=
  if polyline = "" then []
  else (jsSplit polyline ';').map decodePoint

/-- One point of `calculateBounds`: `point.split(',').map(Number)`,
destructured into (lng, lat); a missing second component stays
`undefined`, and `Math.min/max` turn it into `NaN`. -/
def boundsPoint (pt : String) : JsPoint :=
  let parts := jsSplit pt ','
  (jsNumberQ (parts.getD 0 ""),
   if 2 ≤ parts.length then jsNumberQ (parts.getD 1 "") else none)

/-- `Math.min(a, b)` on possibly-NaN numbers. -/
def jsMin2 : Option Rat → Option Rat → Option Rat
  | some a, some b => some (min a b)
  | _, _ => none

/-- `Math.max(a, b)` on possibly-NaN numbers. -/
def jsMax2 : Option Rat → Option Rat → Option Rat
  | some a, some b => some (max a b)
  | _, _ => none

/-- `Math.min(...xs)` over a non-empty spread; the `[]` case (which JS
answers with `Infinity`) is unreachable here because `split(';')` of a
non-empty string yields at least one element. -/
def jsMinSpread : List (Option Rat) → Option Rat
  | [] => none
  | x :: xs => xs.foldl jsMin2 x

/-- `Math.max(...xs)` over a non-empty spread. -/
def jsMaxSpread : List (Option Rat) → Option Rat
  | [] => none
  | x :: xs => xs.foldl jsMax2 x

/-- Bounding box as built by `calculateBounds`: southwest/northeast,
each an (lng, lat) pair whose components may be `NaN`. -/
structure JsBounds where
  southwest : JsPoint
  northeast : JsPoint
  deriving Repr, DecidableEq

/-- `AMapService.calculateBounds`: `null` (`none`) for the empty
string; otherwise componentwise min/max over the parsed points. -/
def calculateBounds (polyline : String) : Option JsBounds :=
  if polyline = "" then none
  else
    let points := (jsSplit polyline ';').map boundsPoint
    let lngs := points.map Prod.fst
    let lats := points.map Prod.snd
    some { southwest := (jsMinSpread lngs, jsMinSpread lats),
           northeast := (jsMaxSpread lngs, jsMaxSpread lats) }

/-! ## Route normalizer (`parseRealRouteData`) -/

/-- A step of a raw provider path; `polyline`, `road`, `orientation`
may be absent. -/
structure RawStep where
  instruction : String
  distance : Rat
  duration : Rat
  polyline : Option String := none
  road : Option String := none
  orientation : Option String := none
  deriving Repr, DecidableEq

/-- A candidate path of the raw provider response. -/
structure RawPath where
  distance : Rat
  duration : Rat
  tolls : Option Rat := none
  traffic_lights : Option Rat := none
  polyline : Option String := none
  steps : List RawStep := []
  deriving Repr, DecidableEq

/-- `data.route` of the provider response: the candidate path list
itself may be absent. -/
structure RawRoute where
  paths : Option (List RawPath) := none
  deriving Repr, DecidableEq

/-- The raw provider response handed to `parseRealRouteData`.  The
provider's own status flag is carried along: the parser never looks at
it (its caller checked it), which is exactly what claim C2 is about. -/
structure RawData where
  status : String := "1"
  route : Option RawRoute := none
  deriving Repr, DecidableEq

/-- Strip `<[^>]*>` matches: from each `<` that has a later `>`, drop
through the first such `>`; a `<` with no closing `>` is kept, as the
regex leaves it unmatched. -/
def findGt : List Char → Option Nat
  | [] => none
  | '>' :: _ => some 0
  | _ :: rest => (findGt rest).map (· + 1)

/-- Character-level worker for `.replace(/<[^>]*>/g, '')`. -/
def stripHtmlChars (l : List Char) : List Char :=
  match l with
  | [] => []
  | c :: rest =>
    if c = '<' then
      match h : findGt rest with
      | some i => stripHtmlChars (rest.drop (i + 1))
      | none => c :: stripHtmlChars rest
    else c :: stripHtmlChars rest
termination_by l.length
decreasing_by
  · simpa [List.length_drop] using Nat.lt_succ_of_le (Nat.sub_le _ _)
  · simp
  · simp

/-- `instruction.replace(/<[^>]*>/g, '')`. -/
def stripHtml (s : String) : String := String.mk (stripHtmlChars s.toList)

/-- `Math.ceil` on an exact rational. -/
def jsCeil (q : Rat) : Int := ⌈q⌉

/-- `x.toFixed(1)` read back as a number: one-decimal rounding, halves
away from zero on the exact rational (the binary-double tie noise of JS
is not modelled; the repository's distances are non-negative metres). -/
def jsToFixed1 (q : Rat) : Rat :=
  if q < 0 then -((⌊-q * 10 + 1 / 2⌋ : Int) : Rat) / 10
  else ((⌊q * 10 + 1 / 2⌋ : Int) : Rat) / 10

/-- One normalized step as produced by `parseRealRouteData`. -/
structure PlanStep where
  instruction : String
  distance : Rat
  time : Int
  road : String
  orientation : String
  deriving Repr, DecidableEq

/-- The normalized route plan returned by `parseRealRouteData`. -/
structure RoutePlan where
  distance : Rat
  time : Int
  tolls : Rat
  traffic_lights : Rat
  steps : List PlanStep
  polyline : List JsPoint
  bounds : Option JsBounds
  source : String
  deriving Repr, DecidableEq

/-- Error thrown by `parseRealRouteData` when no path is available. -/
def noPathMsg : String :=
  "高德API返回成功，但未找到可规划的路径。请检查起点、终点是否在中国大陆可达，或起点终点是否重叠。"

/-- The step fragments used for polyline aggregation:
`path.steps.map(s => s.polyline).filter(p => p && p.length > 0)`. -/
def stepFragments (path : RawPath) : List String :=
  (path.steps.filterMap RawStep.polyline).filter (fun p => p ≠ "")

/-- The aggregated polyline: the path-level string when present and
non-empty, otherwise the `;`-join of the surviving step fragments. -/
def aggregatedPolyline (path : RawPath) : String :=
  match path.polyline with
  | some p => if p = "" then String.intercalate ";" (stepFragments path) else p
  | none => String.intercalate ";" (stepFragments path)

/-- Normalization of one raw step. -/
def convStep (s : RawStep) : PlanStep :=
  { instruction := stripHtml s.instruction,
    distance := jsToFixed1 (s.distance / 1000),
    time := jsCeil (s.duration / 60),
    road := s.road.getD "",
    orientation := s.orientation.getD "" }

/-- `AMapService.parseRealRouteData`: fails when `data.route` is
absent, `route.paths` is absent, or the path list is empty; otherwise
normalizes the first path.  The provider status flag in `data` is never
consulted. -/
def parseRealRouteData (data : RawData) : Except String RoutePlan :=
  match data.route with
  | none => .error noPathMsg
  | some route =>
    match route.paths with
    | none => .error noPathMsg
    | some [] => .error noPathMsg
    | some (path :: _) =>
      let aggregated := aggregatedPolyline path
      .ok { distance := jsToFixed1 (path.distance / 1000),
            time := jsCeil (path.duration / 60),
            tolls := path.tolls.getD 0,
            traffic_lights := path.traffic_lights.getD 0,
            steps := path.steps.map convStep,
            polyline := decodePolyline aggregated,
            bounds := calculateBounds aggregated,
            source := "高德地图真实API" }

/-! ## The SQLite-backed store (server.js, database section)

The store is modelled as an in-memory state: a list of route rows, a
list of marker rows, the AUTOINCREMENT counters, and a logical clock
`now` standing for `CURRENT_TIMESTAMP` (it ticks on every insert so
`created_at` is monotone, as wall-clock timestamps are).  The `!db`
connected-check of every operation is outside the model: a `DB` value
is a connected store. -/

/-- A row of the `routes` table. -/
structure RouteRow where
  id : Nat
  name : String
  description : String
  route_type : String
  city : String
  district : String
  district_type : String
  intersections : Rat
  right_turns : Rat
  left_turns : Rat
  u_turns : Rat
  roundabouts : Rat
  special_traffic_lights : Rat
  special_intersections : Rat
  created_by : String
  start_lng : Rat
  start_lat : Rat
  end_lng : Rat
  end_lat : Rat
  waypoints : String
  distance : Rat
  duration : Rat
  polyline : String
  steps : String
  tolls : Rat
  traffic_lights : Rat
  created_at : Nat
  updated_at : Nat
  deriving Repr, DecidableEq

/-- A row of the `route_markers` table. -/
structure MarkerRow where
  id : Nat
  route_id : Nat
  lng : Rat
  lat : Rat
  marker_type : String
  name : String
  description : String
  image_url : String
  contact : String
  importance : Rat
  category : String
  created_at : Nat
  deriving Repr, DecidableEq

/-- The store state. -/
structure DB where
  routes : List RouteRow := []
  markers : List MarkerRow := []
  nextRouteId : Nat := 1
  nextMarkerId : Nat := 1
  now : Nat := 0
  deriving Repr, DecidableEq

/-- JS truthiness of a string: `""` is falsy. -/
def truthyS (s : String) : Bool := s ≠ ""

/-- JS truthiness of a possibly-absent string. -/
def truthyOS : Option String → Bool
  | some s => truthyS s
  | none => false

/-- JS truthiness of a possibly-absent number: `undefined` and `0` are
falsy. -/
def truthyOR : Option Rat → Bool
  | some q => q ≠ 0
  | none => false

/-- JS `x || d` for a stored string column. -/
def jsOrS (v d : String) : String := if v = "" then d else v

/-- JS `x || d` for a stored numeric column. -/
def jsOrR (v d : Rat) : Rat := if v = 0 then d else v

/-- The caller's payload for `saveRouteToDB`; `none` is an absent
property (the JS destructuring default then applies). -/
structure RouteInput where
  name : Option String := none
  description : Option String := none
  route_type : Option String := none
  city : Option String := none
  district : Option String := none
  district_type : Option String := none
  intersections : Option Rat := none
  right_turns : Option Rat := none
  left_turns : Option Rat := none
  u_turns : Option Rat := none
  roundabouts : Option Rat := none
  special_traffic_lights : Option Rat := none
  special_intersections : Option Rat := none
  created_by : Option String := none
  start_lng : Option Rat := none
  start_lat : Option Rat := none
  end_lng : Option Rat := none
  end_lat : Option Rat := none
  waypoints : Option String := none
  distance : Option Rat := none
  duration : Option Rat := none
  polyline : Option String := none
  steps : Option String := none
  tolls : Option Rat := none
  traffic_lights : Option Rat := none
  deriving Repr, DecidableEq

/-- The generated default name: backtick-template `路线_${Date.getTime()}`,
with the logical clock standing in for the wall clock. -/
def defaultRouteName (t : Nat) : String := "路线_" ++ toString t

/-- The fixed message of the required-field rejection. -/
def requiredFieldsMsg : String := "路线名称、路径点数据和起终点坐标是必填字段"

/-- `saveRouteToDB`: destructure with defaults, reject when the
(defaulted) `name`, or `waypoints` / `start_lng` / `end_lng`, is falsy,
then INSERT.  `start_lat` / `end_lat` escape the falsiness check but
are NOT NULL columns, so their absence fails at the INSERT instead.
On success the resolved id is `this.lastID`. -/
def saveRouteToDB (db : DB) (input : RouteInput) : Except String (DB × Nat) :=
  let name := input.name.getD (defaultRouteName db.now)
  if !truthyS name || !truthyOS input.waypoints
     || !truthyOR input.start_lng || !truthyOR input.end_lng then
    .error requiredFieldsMsg
  else
    match input.start_lng, input.start_lat, input.end_lng, input.end_lat,
          input.waypoints with
    | some slng, some slat, some elng, some elat, some wp =>
      let row : RouteRow :=
        { id := db.nextRouteId,
          name := name,
          description := input.description.getD "",
          route_type := input.route_type.getD "driving",
          city := input.city.getD "",
          district := input.district.getD "",
          district_type := input.district_type.getD "区",
          intersections := input.intersections.getD 0,
          right_turns := input.right_turns.getD 0,
          left_turns := input.left_turns.getD 0,
          u_turns := input.u_turns.getD 0,
          roundabouts := input.roundabouts.getD 0,
          special_traffic_lights := input.special_traffic_lights.getD 0,
          special_intersections := input.special_intersections.getD 0,
          created_by := input.created_by.getD "路线规划员",
          start_lng := slng, start_lat := slat,
          end_lng := elng, end_lat := elat,
          waypoints := wp,
          distance := input.distance.getD 0,
          duration := input.duration.getD 0,
          polyline := input.polyline.getD "",
          steps := input.steps.getD "[]",
          tolls := input.tolls.getD 0,
          traffic_lights := input.traffic_lights.getD 0,
          created_at := db.now, updated_at := db.now }
      .ok ({ db with routes := db.routes ++ [row],
                     nextRouteId := db.nextRouteId + 1,
                     now := db.now + 1 },
           db.nextRouteId)
    | _, _, _, _, _ => .error "SQLITE_CONSTRAINT: NOT NULL constraint failed"

/-- The per-row mapping applied by `getRouteByIdFromDB` (and by the
list/search queries) when shipping a row to the caller: `|| ''` /
`|| '区'` / `|| 0` defaulting.  The JS object also JSON-parses
`waypoints` / `steps` and adds a `creator` alias of `created_by`;
the serialized strings are kept as-is here. -/
def fetchMap (r : RouteRow) : RouteRow :=
  { r with
    city := jsOrS r.city "",
    district := jsOrS r.district "",
    district_type := jsOrS r.district_type "区",
    intersections := jsOrR r.intersections 0,
    right_turns := jsOrR r.right_turns 0,
    left_turns := jsOrR r.left_turns 0,
    u_turns := jsOrR r.u_turns 0,
    roundabouts := jsOrR r.roundabouts 0,
    special_traffic_lights := jsOrR r.special_traffic_lights 0,
    special_intersections := jsOrR r.special_intersections 0 }

/-- `getRouteByIdFromDB`: `SELECT * FROM routes WHERE id = ?` then the
not-found rejection or the row mapping. -/
def getRouteByIdFromDB (db : DB) (id : Nat) : Except String RouteRow :=
  match db.routes.find? (fun r => r.id == id) with
  | none => .error "路线不存在"
  | some row => .ok (fetchMap row)

/-- One key/value entry of the caller's update payload.  The 25
allow-listed keys carry a typed value; any other key is `unknown`
(JS objects are heterogeneous, but only these keys ever reach a SET
clause). -/
inductive FieldUpdate where
  | name (v : String)
  | description (v : String)
  | route_type (v : String)
  | city (v : String)
  | district (v : String)
  | district_type (v : String)
  | intersections (v : Rat)
  | right_turns (v : Rat)
  | left_turns (v : Rat)
  | u_turns (v : Rat)
  | roundabouts (v : Rat)
  | special_traffic_lights (v : Rat)
  | special_intersections (v : Rat)
  | created_by (v : String)
  | start_lng (v : Rat)
  | start_lat (v : Rat)
  | end_lng (v : Rat)
  | end_lat (v : Rat)
  | waypoints (v : String)
  | distance (v : Rat)
  | duration (v : Rat)
  | polyline (v : String)
  | steps (v : String)
  | tolls (v : Rat)
  | traffic_lights (v : Rat)
  | unknown (key : String)
  deriving Repr, DecidableEq

/-- `allowedFields.includes(key)`. -/
def FieldUpdate.isAllowed : FieldUpdate → Bool
  | .unknown _ => false
  | _ => true

/-- Apply one SET clause to a row. -/
def applyUpdate (r : RouteRow) : FieldUpdate → RouteRow
  | .name v => { r with name := v }
  | .description v => { r with description := v }
  | .route_type v => { r with route_type := v }
  | .city v => { r with city := v }
  | .district v => { r with district := v }
  | .district_type v => { r with district_type := v }
  | .intersections v => { r with intersections := v }
  | .right_turns v => { r with right_turns := v }
  | .left_turns v => { r with left_turns := v }
  | .u_turns v => { r with u_turns := v }
  | .roundabouts v => { r with roundabouts := v }
  | .special_traffic_lights v => { r with special_traffic_lights := v }
  | .special_intersections v => { r with special_intersections := v }
  | .created_by v => { r with created_by := v }
  | .start_lng v => { r with start_lng := v }
  | .start_lat v => { r with start_lat := v }
  | .end_lng v => { r with end_lng := v }
  | .end_lat v => { r with end_lat := v }
  | .waypoints v => { r with waypoints := v }
  | .distance v => { r with distance := v }
  | .duration v => { r with duration := v }
  | .polyline v => { r with polyline := v }
  | .steps v => { r with steps := v }
  | .tolls v => { r with tolls := v }
  | .traffic_lights v => { r with traffic_lights := v }
  | .unknown _ => r

/-- The message of the nothing-to-update rejection. -/
def noFieldsMsg : String := "没有有效的更新字段"

/-- `updateRouteInDB`: iterate the payload keys, keeping only
allow-listed ones; reject when none survive; otherwise run
`UPDATE routes SET field = ?, ..., updated_at = CURRENT_TIMESTAMP
WHERE id = ?` and resolve `{id, changes}` where `changes` counts the
matched rows. -/
def updateRouteInDB (db : DB) (id : Nat) (updates : List FieldUpdate) :
    Except String (DB × Nat) :=
  let fields := updates.filter FieldUpdate.isAllowed
  if fields.isEmpty then .error noFieldsMsg
  else
    let changes := (db.routes.filter (fun r => r.id == id)).length
    let routes := db.routes.map (fun r =>
      if r.id == id then { fields.foldl applyUpdate r with updated_at := db.now }
      else r)
    .ok ({ db with routes := routes, now := db.now + 1 }, changes)

/-- `deleteRouteFromDB`: `DELETE FROM routes WHERE id = ?`.  The
`route_markers` DDL declares `ON DELETE CASCADE`, but the connection
never issues `PRAGMA foreign_keys = ON`, and SQLite leaves foreign-key
enforcement (including cascades) OFF by default — so only the `routes`
row goes; the markers stay. -/
def deleteRouteFromDB (db : DB) (id : Nat) : DB × Nat :=
  let changes := (db.routes.filter (fun r => r.id == id)).length
  ({ db with routes := db.routes.filter (fun r => r.id ≠ id) }, changes)

/-- The `route_markers` DDL string of `createTables` (server.js),
kept verbatim so that the declared-but-inert cascade clause can be
referred to. -/
def createMarkersTableSql : String :=
  "CREATE TABLE IF NOT EXISTS route_markers (
    id INTEGER PRIMARY KEY AUTOINCREMENT,
    route_id INTEGER NOT NULL,
    lng REAL NOT NULL,
    lat REAL NOT NULL,
    marker_type TEXT DEFAULT 'important',
    name TEXT NOT NULL,
    description TEXT,
    image_url TEXT,
    contact TEXT,
    importance INTEGER DEFAULT 1,
    category TEXT,
    created_at DATETIME DEFAULT CURRENT_TIMESTAMP,
    FOREIGN KEY (route_id) REFERENCES routes (id) ON DELETE CASCADE
  )"

/-- The caller's payload for `saveRouteMarkerToDB`. -/
structure MarkerInput where
  lng : Option Rat := none
  lat : Option Rat := none
  marker_type : Option String := none
  name : Option String := none
  description : Option String := none
  image_url : Option String := none
  contact : Option String := none
  importance : Option Rat := none
  category : Option String := none
  deriving Repr, DecidableEq

/-- The fixed message of the marker required-field rejection. -/
def markerRequiredMsg : String := "经纬度和名称为必填字段"

/-- `saveRouteMarkerToDB`: destructure with defaults, reject when
`lng` / `lat` / `name` is falsy (so `0` coordinates are rejected),
then INSERT.  Foreign keys are unenforced, so any `routeId` inserts. -/
def saveRouteMarkerToDB (db : DB) (routeId : Nat) (m : MarkerInput) :
    Except String (DB × Nat) :=
  if !truthyOR m.lng || !truthyOR m.lat || !truthyOS m.name then
    .error markerRequiredMsg
  else
    match m.lng, m.lat, m.name with
    | some lng, some lat, some nm =>
      let row : MarkerRow :=
        { id := db.nextMarkerId, route_id := routeId,
          lng := lng, lat := lat,
          marker_type := m.marker_type.getD "important",
          name := nm,
          description := m.description.getD "",
          image_url := m.image_url.getD "",
          contact := m.contact.getD "",
          importance := m.importance.getD 1,
          category := m.category.getD "other",
          created_at := db.now }
      .ok ({ db with markers := db.markers ++ [row],
                     nextMarkerId := db.nextMarkerId + 1,
                     now := db.now + 1 },
           db.nextMarkerId)
    | _, _, _ => .error markerRequiredMsg

/-- `ORDER BY importance DESC, created_at DESC` for markers. -/
def markerOrder (a b : MarkerRow) : Prop :=
  b.importance < a.importance ∨
    (b.importance = a.importance ∧ b.created_at ≤ a.created_at)

instance : DecidableRel markerOrder := fun _ _ =>
  inferInstanceAs (Decidable (_ ∨ _))

/-- `getRouteMarkersFromDB`: `SELECT * FROM route_markers WHERE
route_id = ? ORDER BY importance DESC, created_at DESC`. -/
def getRouteMarkersFromDB (db : DB) (routeId : Nat) : List MarkerRow :=
  List.insertionSort markerOrder
    (db.markers.filter (fun m => m.route_id == routeId))

/-! ## Search engine (`searchRoutesFromDB`) -/

/-- ASCII lowering, for SQLite's case-insensitive `LIKE`. -/
def asciiLowerChar (c : Char) : Char :=
  if 'A' ≤ c && c ≤ 'Z' then Char.ofNat (c.toNat + 32) else c

/-- Lowercase a string (ASCII range only, as SQLite `LIKE` does). -/
def asciiLower (s : String) : String := String.mk (s.toList.map asciiLowerChar)

/-- Whether `pat` begins `hay`. -/
def begins : List Char → List Char → Bool
  | [], _ => true
  | _ :: _, [] => false
  | a :: as, b :: bs => a == b && begins as bs

/-- Whether `pat` occurs contiguously inside `hay`. -/
def containsSeg (pat : List Char) : List Char → Bool
  | [] => pat.isEmpty
  | c :: rest => begins pat (c :: rest) || containsSeg pat rest

/-- `column LIKE '%kw%'`: case-insensitive substring containment.
(`%` / `_` wildcards inside the keyword itself are not modelled.) -/
def likeContains (column kw : String) : Bool :=
  containsSeg (asciiLower kw).toList (asciiLower column).toList

/-- Whether the keyword activates the WHERE clause:
`keyword && keyword.trim() !== ''`. -/
def keywordActive (kw : String) : Bool := kw ≠ "" && jsTrim kw ≠ ""

/-- The five-column OR predicate of both search queries. -/
def matchesKeyword (kw : String) (r : RouteRow) : Bool :=
  likeContains r.name kw || likeContains r.description kw ||
  likeContains r.city kw || likeContains r.district kw ||
  likeContains r.created_by kw

/-- The row predicate shared by the COUNT query and the data query. -/
def searchPred (kw : String) (r : RouteRow) : Bool :=
  if keywordActive kw then matchesKeyword kw r else true

/-- `ORDER BY created_at DESC`. -/
def createdDesc (a b : RouteRow) : Prop := b.created_at ≤ a.created_at

instance : DecidableRel createdDesc := fun a b =>
  Nat.decLe b.created_at a.created_at

/-- The resolved value of `searchRoutesFromDB`. -/
structure SearchResult where
  routes : List RouteRow
  total : Nat
  page : Nat
  limit : Nat
  deriving Repr, DecidableEq

/-- `searchRoutesFromDB`: run the COUNT query under the keyword
predicate; when the total is `0`, resolve an empty page at once;
otherwise run the data query (`ORDER BY created_at DESC LIMIT ?
OFFSET ?` with offset `(page-1)*limit`) and map the rows.  The second
component records whether the data query was issued.  JS computes a
negative offset for `page = 0`, which SQLite treats as `0` — exactly
the `Nat` truncation of `(page - 1) * limit`. -/
def searchRoutesFromDB (db : DB) (keyword : String) (page limit : Nat) :
    SearchResult × Bool :=
  let matching := db.routes.filter (searchPred keyword)
  let total := matching.length
  if total = 0 then
    ({ routes := [], total := 0, page := page, limit := limit }, false)
  else
    let sorted := List.insertionSort createdDesc matching
    let rows := (sorted.drop ((page - 1) * limit)).take limit
    ({ routes := rows.map fetchMap, total := total,
       page := page, limit := limit }, true)

/-! ## Lemmas about the geometry decoder -/

theorem foldl_jsMin2_map_some (xs : List Rat) (a : Rat) :
    (xs.map some).foldl jsMin2 (some a) = some (xs.foldl min a) := by
  induction xs generalizing a with
  | nil => rfl
  | cons x xs ih => simpa [jsMin2] using ih (min a x)

theorem foldl_jsMax2_map_some (xs : List Rat) (a : Rat) :
    (xs.map some).foldl jsMax2 (some a) = some (xs.foldl max a) := by
  induction xs generalizing a with
  | nil => rfl
  | cons x xs ih => simpa [jsMax2] using ih (max a x)

theorem jsMinSpread_map_some (xs : List Rat) :
    jsMinSpread (xs.map some) = xs.min? := by
  cases xs with
  | nil => rfl
  | cons x xs =>
    simpa [jsMinSpread, List.min?] using foldl_jsMin2_map_some xs x

theorem jsMaxSpread_map_some (xs : List Rat) :
    jsMaxSpread (xs.map some) = xs.max? := by
  cases xs with
  | nil => rfl
  | cons x xs =>
    simpa [jsMaxSpread, List.max?] using foldl_jsMax2_map_some xs x

/-- The decoded point list of `calculateBounds` for a path string. -/
def boundsPoints (s : String) : List JsPoint :=
  (jsSplit s ';').map boundsPoint

theorem calculateBounds_eq_minmax (s : String) (L : List (Rat × Rat))
    (hs : s ≠ "") (hL : boundsPoints s = L.map (fun p => (some p.1, some p.2))) :
    calculateBounds s =
      some { southwest := ((L.map Prod.fst).min?, (L.map Prod.snd).min?),
             northeast := ((L.map Prod.fst).max?, (L.map Prod.snd).max?) } := by
  unfold calculateBounds
  rw [if_neg hs]
  unfold boundsPoints at hL
  rw [hL]
  show some _ = some _
  rw [List.map_map, List.map_map]
  have h1 : (Prod.fst ∘ fun p : Rat × Rat => ((some p.1 : Option Rat), (some p.2 : Option Rat)))
      = some ∘ Prod.fst := rfl
  have h2 : (Prod.snd ∘ fun p : Rat × Rat => ((some p.1 : Option Rat), (some p.2 : Option Rat)))
      = some ∘ Prod.snd := rfl
  rw [h1, h2, ← List.map_map (f := Prod.fst), ← List.map_map (f := Prod.snd)]
  rw [jsMinSpread_map_some, jsMaxSpread_map_some,
      jsMinSpread_map_some, jsMaxSpread_map_some]

/-- C8: decode of the empty string is the empty sequence and bounds of
the empty string is null; decode of a one-point string has exactly one
coordinate; for every non-empty path string all of whose points parse,
the bounds are the componentwise min/max box, southwest from the
minima and northeast from the maxima; a single-point input collapses
the box (southwest = northeast). -/
theorem c8_decode_and_bounds :
    decodePolyline "" = [] ∧
    calculateBounds "" = none ∧
    (decodePolyline "116.1,39.1").length = 1 ∧
    (∀ (s : String) (L : List (Rat × Rat)),
      s ≠ "" →
      boundsPoints s = L.map (fun p => (some p.1, some p.2)) →
      calculateBounds s =
        some { southwest := ((L.map Prod.fst).min?, (L.map Prod.snd).min?),
               northeast := ((L.map Prod.fst).max?, (L.map Prod.snd).max?) }) ∧
    (∀ (s : String) (x y : Rat),
      s ≠ "" →
      boundsPoints s = [(some x, some y)] →
      ∃ bb, calculateBounds s = some bb ∧ bb.southwest = bb.northeast) := by
  refine ⟨rfl, rfl, by decide, calculateBounds_eq_minmax, ?_⟩
  intro s x y hs hL
  refine ⟨_, calculateBounds_eq_minmax s [(x, y)] hs (by simpa using hL), rfl⟩

/-- Witness for C8 at concrete inputs: a two-point polyline gets the
componentwise min/max box, and a one-point polyline collapses it. -/
theorem c8_decode_and_bounds_witness :
    (calculateBounds "116.1,39.1;116.2,39.0" =
      some { southwest :=
               (([(mkRat 1161 10, mkRat 391 10),
                  (mkRat 1162 10, mkRat 390 10)].map Prod.fst).min?,
                ([(mkRat 1161 10, mkRat 391 10),
                  (mkRat 1162 10, mkRat 390 10)].map Prod.snd).min?),
             northeast :=
               (([(mkRat 1161 10, mkRat 391 10),
                  (mkRat 1162 10, mkRat 390 10)].map Prod.fst).max?,
                ([(mkRat 1161 10, mkRat 391 10),
                  (mkRat 1162 10, mkRat 390 10)].map Prod.snd).max?) }) ∧
    (∃ bb, calculateBounds "116.1,39.1" = some bb ∧
      bb.southwest = bb.northeast) := by
  constructor
  · exact c8_decode_and_bounds.2.2.2.1 "116.1,39.1;116.2,39.0"
      [(mkRat 1161 10, mkRat 391 10), (mkRat 1162 10, mkRat 390 10)]
      (by decide) (by decide)
  · exact c8_decode_and_bounds.2.2.2.2 "116.1,39.1"
      (mkRat 1161 10) (mkRat 391 10) (by decide) (by decide)

/-- `jsToFixed1` agrees with round-to-one-decimal (Mathlib `round`) on
non-negative inputs. -/
theorem jsToFixed1_eq_round (q : Rat) (h : 0 ≤ q) :
    jsToFixed1 q = ((round (q * 10) : Int) : Rat) / 10 := by
  rw [jsToFixed1, if_neg (not_lt.mpr h), round_eq]

/-- C2: whenever the provider response carries no candidate path —
`route` absent, `route.paths` absent, or an empty path list — the
parser fails with the no-path error and produces no plan, whatever the
provider's own `status` flag says (the parser never reads it; `data`
is quantified over all status values). -/
theorem c2_empty_paths_fail :
    ∀ data : RawData,
      data.route = none ∨
        (∃ r, data.route = some r ∧ (r.paths = none ∨ r.paths = some [])) →
      parseRealRouteData data = .error noPathMsg := by
  intro data h
  rcases h with h | ⟨r, hr, h2 | h2⟩
  · simp [parseRealRouteData, h]
  · simp [parseRealRouteData, hr, h2]
  · simp [parseRealRouteData, hr, h2]

/-- Witness for C2: a response whose status flag reports success but
whose path list is empty is rejected. -/
theorem c2_empty_paths_fail_witness :
    parseRealRouteData { status := "1", route := some { paths := some [] } } =
      .error noPathMsg :=
  c2_empty_paths_fail _ (Or.inr ⟨_, rfl, Or.inr rfl⟩)

/-- C6: for a response with at least one (non-negative-distance) path,
the plan's `time` is `ceil(seconds/60)` and its `distance` is
`meters/1000` rounded to one decimal; each step gets the same two
conversions. -/
theorem c6_unit_conversions :
    ∀ (data : RawData) (route : RawRoute) (path : RawPath)
      (rest : List RawPath),
      data.route = some route → route.paths = some (path :: rest) →
      0 ≤ path.distance → (∀ st ∈ path.steps, 0 ≤ st.distance) →
      ∃ plan, parseRealRouteData data = .ok plan ∧
        plan.time = ⌈path.duration / 60⌉ ∧
        plan.distance = ((round (path.distance / 1000 * 10) : Int) : Rat) / 10 ∧
        plan.steps = path.steps.map convStep ∧
        ∀ st ∈ path.steps,
          (convStep st).time = ⌈st.duration / 60⌉ ∧
          (convStep st).distance =
            ((round (st.distance / 1000 * 10) : Int) : Rat) / 10 := by
  intro data route path rest hroute hpaths hd hsteps
  have hparse : parseRealRouteData data = .ok
      { distance := jsToFixed1 (path.distance / 1000),
        time := jsCeil (path.duration / 60),
        tolls := path.tolls.getD 0,
        traffic_lights := path.traffic_lights.getD 0,
        steps := path.steps.map convStep,
        polyline := decodePolyline (aggregatedPolyline path),
        bounds := calculateBounds (aggregatedPolyline path),
        source := "高德地图真实API" } := by
    simp [parseRealRouteData, hroute, hpaths]
  refine ⟨_, hparse, rfl,
    jsToFixed1_eq_round _ (div_nonneg hd (by norm_num)), rfl, ?_⟩
  intro st hst
  exact ⟨rfl, jsToFixed1_eq_round _ (div_nonneg (hsteps st hst) (by norm_num))⟩

/-- A concrete provider step: 1000 m, 61 s. -/
def demoStep : RawStep := { instruction := "go", distance := 1000, duration := 61 }

/-- A concrete provider path: 2345 m, 61 s, one step. -/
def demoPath : RawPath := { distance := 2345, duration := 61, steps := [demoStep] }

/-- A concrete successful provider response with one path. -/
def demoData : RawData := { status := "1", route := some { paths := some [demoPath] } }

/-- Witness for C6: a 2345 m / 61 s path with one 1000 m / 61 s step. -/
theorem c6_unit_conversions_witness :
    ∃ plan, parseRealRouteData demoData = .ok plan ∧
      plan.time = ⌈demoPath.duration / 60⌉ ∧
      plan.distance = ((round (demoPath.distance / 1000 * 10) : Int) : Rat) / 10 ∧
      plan.steps = demoPath.steps.map convStep ∧
      ∀ st ∈ demoPath.steps,
        (convStep st).time = ⌈st.duration / 60⌉ ∧
        (convStep st).distance =
          ((round (st.distance / 1000 * 10) : Int) : Rat) / 10 :=
  c6_unit_conversions demoData { paths := some [demoPath] } demoPath []
    rfl rfl (by decide) (by decide)

/-- C7: the first path's own compressed polyline, when present and
non-empty, is the string that gets decoded (and bounded); otherwise the
decoded string is the `;`-join of the steps' own fragments in step
order, the empty or absent ones skipped. -/
theorem c7_polyline_aggregation :
    ∀ (data : RawData) (route : RawRoute) (path : RawPath)
      (rest : List RawPath),
      data.route = some route → route.paths = some (path :: rest) →
      ∃ plan, parseRealRouteData data = .ok plan ∧
        (∀ p, path.polyline = some p → p ≠ "" →
          plan.polyline = decodePolyline p ∧
          plan.bounds = calculateBounds p) ∧
        (path.polyline = none ∨ path.polyline = some "" →
          plan.polyline = decodePolyline
            (String.intercalate ";"
              ((path.steps.filterMap RawStep.polyline).filter
                (fun p => p ≠ ""))) ∧
          plan.bounds = calculateBounds
            (String.intercalate ";"
              ((path.steps.filterMap RawStep.polyline).filter
                (fun p => p ≠ "")))) := by
  intro data route path rest hroute hpaths
  have hparse : parseRealRouteData data = .ok
      { distance := jsToFixed1 (path.distance / 1000),
        time := jsCeil (path.duration / 60),
        tolls := path.tolls.getD 0,
        traffic_lights := path.traffic_lights.getD 0,
        steps := path.steps.map convStep,
        polyline := decodePolyline (aggregatedPolyline path),
        bounds := calculateBounds (aggregatedPolyline path),
        source := "高德地图真实API" } := by
    simp [parseRealRouteData, hroute, hpaths]
  refine ⟨_, hparse, ?_, ?_⟩
  · intro p hp hne
    have : aggregatedPolyline path = p := by
      simp [aggregatedPolyline, hp, hne]
    rw [this]
    exact ⟨rfl, rfl⟩
  · intro h
    have : aggregatedPolyline path =
        String.intercalate ";"
          ((path.steps.filterMap RawStep.polyline).filter (fun p => p ≠ "")) := by
      rcases h with h | h <;>
        simp [aggregatedPolyline, h, stepFragments]
    rw [this]
    exact ⟨rfl, rfl⟩

/-- A path whose own polyline is empty but whose steps carry
fragments (the second one empty, hence skipped). -/
def demoPathSteps : RawPath :=
  { distance := 100, duration := 60, polyline := some "",
    steps := [{ instruction := "a", distance := 50, duration := 30,
                polyline := some "1,2;3,4" },
              { instruction := "b", distance := 50, duration := 30,
                polyline := some "" },
              { instruction := "c", distance := 0, duration := 0,
                polyline := some "5,6" }] }

/-- A path with a non-empty top-level polyline. -/
def demoPathTop : RawPath :=
  { distance := 100, duration := 60, polyline := some "7,8;9,10",
    steps := [] }

/-- Witness for C7: the top-level polyline is preferred when non-empty,
and the step fragments are joined when it is empty. -/
theorem c7_polyline_aggregation_witness :
    (∃ plan,
      parseRealRouteData
        { status := "1", route := some { paths := some [demoPathTop] } } =
        .ok plan ∧
      plan.polyline = decodePolyline "7,8;9,10" ∧
      plan.bounds = calculateBounds "7,8;9,10") ∧
    (∃ plan,
      parseRealRouteData
        { status := "1", route := some { paths := some [demoPathSteps] } } =
        .ok plan ∧
      plan.polyline = decodePolyline
        (String.intercalate ";"
          ((demoPathSteps.steps.filterMap RawStep.polyline).filter
            (fun p => p ≠ ""))) ∧
      plan.bounds = calculateBounds
        (String.intercalate ";"
          ((demoPathSteps.steps.filterMap RawStep.polyline).filter
            (fun p => p ≠ "")))) := by
  constructor
  · obtain ⟨plan, hparse, htop, -⟩ :=
      c7_polyline_aggregation
        { status := "1", route := some { paths := some [demoPathTop] } }
        { paths := some [demoPathTop] } demoPathTop [] rfl rfl
    exact ⟨plan, hparse, htop "7,8;9,10" rfl (by decide)⟩
  · obtain ⟨plan, hparse, -, hjoin⟩ :=
      c7_polyline_aggregation
        { status := "1", route := some { paths := some [demoPathSteps] } }
        { paths := some [demoPathSteps] } demoPathSteps [] rfl rfl
    exact ⟨plan, hparse, hjoin (Or.inr rfl)⟩

/-! ## Claims about route creation -/

/-- A creation payload with every required field except `name`. -/
def noNameInput : RouteInput :=
  { waypoints := some "[]", start_lng := some 116, start_lat := some 39,
    end_lng := some 117, end_lat := some 40 }

/-- Counterexample to C5 as stated: an input whose `name` is absent
still creates a route (the destructuring default `路线_<timestamp>`
fills it in), so creation does not fail whenever one of the four named
fields is absent, and success does not require all four present. -/
theorem c5_absent_name_still_creates :
    noNameInput.name = none ∧
    (saveRouteToDB {} noNameInput).isOk = true := by decide

/-- C5 (amended): creation fails with the fixed-message validation
error — persisting nothing — when `waypoints`, `start_lng` or
`end_lng` is absent; an absent `name` is replaced by a generated
default instead.  Conversely a successful creation implies those three
fields were present. -/
theorem c5_required_fields :
    ∀ (db : DB) (input : RouteInput),
      (input.waypoints = none ∨ input.start_lng = none ∨
          input.end_lng = none →
        saveRouteToDB db input = .error requiredFieldsMsg) ∧
      (∀ db2 rid, saveRouteToDB db input = .ok (db2, rid) →
        input.waypoints ≠ none ∧ input.start_lng ≠ none ∧
          input.end_lng ≠ none) := by
  intro db input
  have herr : input.waypoints = none ∨ input.start_lng = none ∨
      input.end_lng = none →
      saveRouteToDB db input = .error requiredFieldsMsg := by
    intro h
    rcases h with h | h | h <;>
      simp [saveRouteToDB, h, truthyOS, truthyOR]
  refine ⟨herr, ?_⟩
  intro db2 rid hok
  refine ⟨fun h => ?_, fun h => ?_, fun h => ?_⟩
  · rw [herr (Or.inl h)] at hok; exact absurd hok (by simp)
  · rw [herr (Or.inr (Or.inl h))] at hok; exact absurd hok (by simp)
  · rw [herr (Or.inr (Or.inr h))] at hok; exact absurd hok (by simp)

/-- Witness for C5 (amended) at a concrete input: absent `waypoints`
is rejected with the fixed message. -/
theorem c5_required_fields_witness :
    saveRouteToDB {}
      { name := some "A", start_lng := some 116, start_lat := some 39,
        end_lng := some 117, end_lat := some 40 } =
      .error requiredFieldsMsg :=
  (c5_required_fields {} _).1 (Or.inl rfl)

/-- A creation payload carrying exactly the required fields of the
end-to-end scenario. -/
def minimalInput : RouteInput :=
  { name := some "A",
    waypoints := some "[[116.397,39.909],[116.407,39.919]]",
    start_lng := some (mkRat 116397 1000), start_lat := some (mkRat 39909 1000),
    end_lng := some (mkRat 116407 1000), end_lat := some (mkRat 39919 1000) }

/-- The store after creating `minimalInput` in an empty store. -/
def c9db : DB :=
  match saveRouteToDB {} minimalInput with
  | .ok (d, _) => d
  | .error _ => {}

/-- Counterexample to C9 as stated: the route created with only the
required fields does not get `createdBy == "system"` — the create
operation always supplies the JS destructuring default `路线规划员`,
so the schema-level `DEFAULT 'system'` never applies. -/
theorem c9_createdby_counterexample :
    (saveRouteToDB {} minimalInput).isOk = true ∧
    (getRouteByIdFromDB c9db 1).toOption.map RouteRow.created_by =
      some "路线规划员" ∧
    "路线规划员" ≠ "system" := by decide

/-- The row inserted for a required-fields-only creation. -/
def newRow (db : DB) (nm wp : String) (slng slat elng elat : Rat) : RouteRow :=
  { id := db.nextRouteId, name := nm, description := "",
    route_type := "driving", city := "", district := "",
    district_type := "区", intersections := 0, right_turns := 0,
    left_turns := 0, u_turns := 0, roundabouts := 0,
    special_traffic_lights := 0, special_intersections := 0,
    created_by := "路线规划员",
    start_lng := slng, start_lat := slat, end_lng := elng, end_lat := elat,
    waypoints := wp, distance := 0, duration := 0, polyline := "",
    steps := "[]", tolls := 0, traffic_lights := 0,
    created_at := db.now, updated_at := db.now }

/-- Bookkeeping invariant: every stored route id is below the
AUTOINCREMENT counter. -/
def DB.wfIds (db : DB) : Prop := ∀ r ∈ db.routes, r.id < db.nextRouteId

/-- C9 (amended): creating a route with only the required fields and
fetching it by the returned id yields the given name, every
traffic-feature counter 0, routeType `driving`, districtType `区`,
and createdBy `路线规划员` (not `system`). -/
theorem c9_create_fetch_defaults :
    ∀ (db : DB) (nm wp : String) (slng slat elng elat : Rat),
      db.wfIds → nm ≠ "" → wp ≠ "" → slng ≠ 0 → elng ≠ 0 →
      ∃ db2, saveRouteToDB db
          { name := some nm, waypoints := some wp,
            start_lng := some slng, start_lat := some slat,
            end_lng := some elng, end_lat := some elat } =
          .ok (db2, db.nextRouteId) ∧
        ∃ r, getRouteByIdFromDB db2 db.nextRouteId = .ok r ∧
          r.name = nm ∧ r.intersections = 0 ∧ r.right_turns = 0 ∧
          r.left_turns = 0 ∧ r.u_turns = 0 ∧ r.roundabouts = 0 ∧
          r.special_traffic_lights = 0 ∧ r.special_intersections = 0 ∧
          r.route_type = "driving" ∧ r.district_type = "区" ∧
          r.created_by = "路线规划员" := by
  intro db nm wp slng slat elng elat hwf hnm hwp hslng helng
  have hok : saveRouteToDB db
      { name := some nm, waypoints := some wp,
        start_lng := some slng, start_lat := some slat,
        end_lng := some elng, end_lat := some elat } =
      .ok ({ db with routes := db.routes ++ [newRow db nm wp slng slat elng elat],
                     nextRouteId := db.nextRouteId + 1,
                     now := db.now + 1 },
           db.nextRouteId) := by
    simp [saveRouteToDB, truthyS, truthyOS, truthyOR, hnm, hwp, hslng, helng,
          newRow]
  refine ⟨_, hok, ?_⟩
  have hfind : (db.routes ++ [newRow db nm wp slng slat elng elat]).find?
      (fun r => r.id == db.nextRouteId) =
      some (newRow db nm wp slng slat elng elat) := by
    rw [List.find?_append]
    have hnone : db.routes.find? (fun r => r.id == db.nextRouteId) = none :=
      List.find?_eq_none.mpr (fun r hr => by
        simpa using Nat.ne_of_lt (hwf r hr))
    rw [hnone]
    simp [newRow]
  refine ⟨fetchMap (newRow db nm wp slng slat elng elat), ?_, ?_⟩
  · simp only [getRouteByIdFromDB, hfind]
  · simp [newRow, fetchMap, jsOrS, jsOrR]

/-- Witness for C9 (amended): the concrete end-to-end creation of the
spec scenario in an empty store. -/
theorem c9_create_fetch_defaults_witness :
    ∃ db2, saveRouteToDB {} minimalInput = .ok (db2, 1) ∧
      ∃ r, getRouteByIdFromDB db2 1 = .ok r ∧
        r.name = "A" ∧ r.intersections = 0 ∧ r.right_turns = 0 ∧
        r.left_turns = 0 ∧ r.u_turns = 0 ∧ r.roundabouts = 0 ∧
        r.special_traffic_lights = 0 ∧ r.special_intersections = 0 ∧
        r.route_type = "driving" ∧ r.district_type = "区" ∧
        r.created_by = "路线规划员" :=
  c9_create_fetch_defaults {} "A" "[[116.397,39.909],[116.407,39.919]]"
    (mkRat 116397 1000) (mkRat 39909 1000) (mkRat 116407 1000)
    (mkRat 39919 1000) (by simp [DB.wfIds]) (by decide) (by decide)
    (by decide) (by decide)

/-- C10: required-field validation is JS falsiness, not presence — a
route payload whose `start_lng` or `end_lng` is (present and) `0`, and
a marker payload whose `lng` or `lat` is `0`, are rejected with the
respective missing-required-fields message, whatever the other fields
hold. -/
theorem c10_zero_coordinates_rejected :
    (∀ (db : DB) (input : RouteInput),
      input.start_lng = some 0 ∨ input.end_lng = some 0 →
      saveRouteToDB db input = .error requiredFieldsMsg) ∧
    (∀ (db : DB) (routeId : Nat) (m : MarkerInput),
      m.lng = some 0 ∨ m.lat = some 0 →
      saveRouteMarkerToDB db routeId m = .error markerRequiredMsg) := by
  constructor
  · intro db input h
    rcases h with h | h <;> simp [saveRouteToDB, h, truthyOR]
  · intro db routeId m h
    rcases h with h | h <;> simp [saveRouteMarkerToDB, h, truthyOR]

/-- Witness for C10: payloads whose every required field is present but
whose longitude is `0` (prime meridian) are still rejected. -/
theorem c10_zero_coordinates_rejected_witness :
    saveRouteToDB {}
      { name := some "A", waypoints := some "[]", start_lng := some 0,
        start_lat := some 39, end_lng := some 117, end_lat := some 40 } =
      .error requiredFieldsMsg ∧
    saveRouteMarkerToDB {} 1
      { lng := some 0, lat := some 39, name := some "M" } =
      .error markerRequiredMsg :=
  ⟨c10_zero_coordinates_rejected.1 {} _ (Or.inl rfl),
   c10_zero_coordinates_rejected.2 {} 1 _ (Or.inl rfl)⟩

/-! ## Claims about route update -/

/-- `applyUpdate` never touches the primary key. -/
theorem applyUpdate_id (r : RouteRow) (u : FieldUpdate) :
    (applyUpdate r u).id = r.id := by
  cases u <;> rfl

/-- Folding SET clauses never touches the primary key. -/
theorem foldl_applyUpdate_id (fields : List FieldUpdate) (r : RouteRow) :
    (fields.foldl applyUpdate r).id = r.id := by
  induction fields generalizing r with
  | nil => rfl
  | cons u us ih => rw [List.foldl_cons, ih, applyUpdate_id]

/-- `updateRouteInDB` reads the payload only through its allow-listed
entries. -/
theorem updateRouteInDB_filter_congr (db : DB) (id : Nat)
    (us vs : List FieldUpdate)
    (h : us.filter FieldUpdate.isAllowed = vs.filter FieldUpdate.isAllowed) :
    updateRouteInDB db id us = updateRouteInDB db id vs := by
  unfold updateRouteInDB
  rw [h]

/-- C4: non-allow-listed keys are silently dropped (removing one from
the payload never changes the result); the call errors exactly when no
allow-listed entry survives; on success every matched row is stamped
with the current clock as `updated_at` and unmatched rows are kept
as-is; and an update against an id with no row succeeds with zero rows
affected and the stored routes unchanged. -/
theorem c4_update_allowlist_contract :
    ∀ (db : DB) (id : Nat) (updates : List FieldUpdate),
      (∀ (l1 l2 : List FieldUpdate) (k : String),
        updates = l1 ++ FieldUpdate.unknown k :: l2 →
        updateRouteInDB db id updates = updateRouteInDB db id (l1 ++ l2)) ∧
      (updates.filter FieldUpdate.isAllowed = [] ↔
        updateRouteInDB db id updates = .error noFieldsMsg) ∧
      (∀ db2 changes, updateRouteInDB db id updates = .ok (db2, changes) →
        (∀ r ∈ db2.routes, r.id = id → r.updated_at = db.now) ∧
        (∀ r ∈ db2.routes, r.id ≠ id → r ∈ db.routes)) ∧
      ((∀ r ∈ db.routes, r.id ≠ id) →
        updates.filter FieldUpdate.isAllowed ≠ [] →
        updateRouteInDB db id updates =
          .ok ({ db with now := db.now + 1 }, 0)) := by
  intro db id updates
  refine ⟨?_, ?_, ?_, ?_⟩
  · intro l1 l2 k h
    subst h
    refine updateRouteInDB_filter_congr db id _ _ ?_
    simp [List.filter_append, FieldUpdate.isAllowed]
  · constructor
    · intro h
      simp [updateRouteInDB, h]
    · intro herr
      by_contra hne
      have hfalse : (updates.filter FieldUpdate.isAllowed).isEmpty = false := by
        simpa [List.isEmpty_iff] using hne
      simp [updateRouteInDB, hfalse] at herr
  · intro db2 changes hok
    by_cases hempty : (updates.filter FieldUpdate.isAllowed).isEmpty = true
    · simp [updateRouteInDB, hempty] at hok
    · simp only [Bool.not_eq_true] at hempty
      simp only [updateRouteInDB, hempty, Bool.false_eq_true, if_false,
        Except.ok.injEq, Prod.mk.injEq] at hok
      obtain ⟨hdb2, -⟩ := hok
      subst hdb2
      constructor
      · intro r hr hrid
        obtain ⟨r0, hr0, hfr⟩ := List.mem_map.mp hr
        by_cases hb : r0.id = id
        · simp only [hb, beq_self_eq_true, if_true] at hfr
          rw [← hfr]
        · simp only [beq_eq_false_iff_ne.mpr hb, Bool.false_eq_true,
            if_false] at hfr
          exact absurd (hfr ▸ hrid) (hfr ▸ hb)
      · intro r hr hrid
        obtain ⟨r0, hr0, hfr⟩ := List.mem_map.mp hr
        by_cases hb : r0.id = id
        · exfalso
          simp only [hb, beq_self_eq_true, if_true] at hfr
          apply hrid
          rw [← hfr]
          show (List.foldl applyUpdate r0
            (updates.filter FieldUpdate.isAllowed)).id = id
          rw [foldl_applyUpdate_id, hb]
        · simp only [beq_eq_false_iff_ne.mpr hb, Bool.false_eq_true,
            if_false] at hfr
          rw [← hfr]; exact hr0
  · intro hno hne
    have hfalse : (updates.filter FieldUpdate.isAllowed).isEmpty = false := by
      simpa [List.isEmpty_iff] using hne
    have hchanges : (db.routes.filter (fun r => r.id == id)).length = 0 := by
      rw [List.filter_eq_nil_iff.mpr (fun r hr => by simpa using hno r hr)]
      rfl
    have hmap : db.routes.map (fun r =>
        if r.id == id then
          { (updates.filter FieldUpdate.isAllowed).foldl applyUpdate r with
            updated_at := db.now }
        else r) = db.routes := by
      have hpt : ∀ r ∈ db.routes, (fun r =>
          if r.id == id then
            { (updates.filter FieldUpdate.isAllowed).foldl applyUpdate r with
              updated_at := db.now }
          else r) r = (fun r => r) r := fun r hr => by
        simp [beq_eq_false_iff_ne.mpr (hno r hr)]
      rw [List.map_congr_left hpt]
      simp
    simp only [updateRouteInDB, hfalse, Bool.false_eq_true, if_false,
      hchanges, hmap]

/-- A creation payload with the given name and fixed valid
coordinates. -/
def demoRouteInput (nm : String) : RouteInput :=
  { name := some nm, waypoints := some "[]", start_lng := some 116,
    start_lat := some 39, end_lng := some 117, end_lat := some 40 }

/-- A store holding two routes, `Alpha` (id 1) then `Beta` (id 2). -/
def demoDb2 : DB :=
  match saveRouteToDB {} (demoRouteInput "Alpha") with
  | .ok (d1, _) =>
    match saveRouteToDB d1 (demoRouteInput "Beta") with
    | .ok (d2, _) => d2
    | .error _ => d1
  | .error _ => {}

/-- Witness for C4: dropping the bogus key leaves the result unchanged;
a payload with only a bogus key errors; an update of `name` against a
missing id succeeds with zero rows affected. -/
theorem c4_update_allowlist_contract_witness :
    updateRouteInDB demoDb2 1
      [FieldUpdate.unknown "bogusField", FieldUpdate.name "x"] =
      updateRouteInDB demoDb2 1 [FieldUpdate.name "x"] ∧
    updateRouteInDB demoDb2 1 [FieldUpdate.unknown "bogusField"] =
      .error noFieldsMsg ∧
    updateRouteInDB demoDb2 999 [FieldUpdate.name "x"] =
      .ok ({ demoDb2 with now := demoDb2.now + 1 }, 0) := by
  refine ⟨?_, ?_, ?_⟩
  · exact (c4_update_allowlist_contract demoDb2 1
      [FieldUpdate.unknown "bogusField", FieldUpdate.name "x"]).1
      [] [FieldUpdate.name "x"] "bogusField" rfl
  · exact (c4_update_allowlist_contract demoDb2 1
      [FieldUpdate.unknown "bogusField"]).2.1.mp rfl
  · exact (c4_update_allowlist_contract demoDb2 999
      [FieldUpdate.name "x"]).2.2.2 (by decide) (by decide)

/-! ## Claim about route deletion (cascade) -/

/-- A store holding one route (id 1) and two markers attached to it. -/
def c3db : DB :=
  match saveRouteToDB {} (demoRouteInput "Gamma") with
  | .ok (d1, rid) =>
    match saveRouteMarkerToDB d1 rid
        { lng := some 116, lat := some 39, name := some "M1" } with
    | .ok (d2, _) =>
      match saveRouteMarkerToDB d2 rid
          { lng := some 117, lat := some 40, name := some "M2" } with
      | .ok (d3, _) => d3
      | .error _ => d2
    | .error _ => d1
  | .error _ => {}

set_option maxRecDepth 40000 in
/-- C3 (observed code behaviour, contradicting the claim): the markers
table DDL declares `ON DELETE CASCADE`, yet deleting the route with two
markers removes only the route row — both markers survive and
`getRouteMarkersFromDB` still returns them, because the connection
never enables SQLite foreign-key enforcement. -/
theorem c3_delete_leaves_markers :
    containsSeg "ON DELETE CASCADE".toList createMarkersTableSql.toList =
      true ∧
    (getRouteMarkersFromDB c3db 1).length = 2 ∧
    (deleteRouteFromDB c3db 1).2 = 1 ∧
    (deleteRouteFromDB c3db 1).1.routes = [] ∧
    (getRouteMarkersFromDB (deleteRouteFromDB c3db 1).1 1).length = 2 := by
  decide

/-! ## Claims about the search engine -/

/-- The row count of one search page: `min(limit, total - offset)`. -/
theorem searchRoutes_page_length (db : DB) (kw : String) (page limit : Nat) :
    ((searchRoutesFromDB db kw page limit).1.routes).length =
      min limit
        ((db.routes.filter (searchPred kw)).length - (page - 1) * limit) := by
  unfold searchRoutesFromDB
  by_cases h : (db.routes.filter (searchPred kw)).length = 0
  · simp [h]
  · simp only [h, if_false]
    show ((((List.insertionSort createdDesc
        (db.routes.filter (searchPred kw))).drop
          ((page - 1) * limit)).take limit).map fetchMap).length = _
    rw [List.length_map, List.length_take, List.length_drop,
      (List.perm_insertionSort createdDesc
        (db.routes.filter (searchPred kw))).length_eq]

/-- Summing the page sizes over the first `K` pages. -/
theorem searchRoutes_sum_pages (db : DB) (kw : String) (limit K : Nat) :
    ∑ p ∈ Finset.range K,
      ((searchRoutesFromDB db kw (p + 1) limit).1.routes).length =
      min (K * limit) (db.routes.filter (searchPred kw)).length := by
  induction K with
  | zero => simp
  | succ K ih =>
    rw [Finset.sum_range_succ, ih, searchRoutes_page_length,
      Nat.add_sub_cancel, Nat.succ_mul]
    generalize (db.routes.filter (searchPred kw)).length = n
    generalize K * limit = a
    omega

/-- C1: the reported `total` is the count of rows matching the keyword
predicate, for every page and page size (so never the page's own row
count); a zero total short-circuits to an empty page without issuing
the data query (second component `false`); summing row counts over
enough pages recovers exactly `total`; and any page past the last is
empty while `total` is unchanged. -/
theorem c1_search_total_and_pagination :
    ∀ (db : DB) (kw : String) (page limit : Nat),
      ((searchRoutesFromDB db kw page limit).1.total =
        (db.routes.filter (searchPred kw)).length) ∧
      ((db.routes.filter (searchPred kw)).length = 0 →
        searchRoutesFromDB db kw page limit =
          ({ routes := [], total := 0, page := page, limit := limit },
           false)) ∧
      (0 < (db.routes.filter (searchPred kw)).length →
        (searchRoutesFromDB db kw page limit).2 = true) ∧
      (∀ K, (db.routes.filter (searchPred kw)).length ≤ K * limit →
        ∑ p ∈ Finset.range K,
          ((searchRoutesFromDB db kw (p + 1) limit).1.routes).length =
          (db.routes.filter (searchPred kw)).length) ∧
      ((db.routes.filter (searchPred kw)).length ≤ (page - 1) * limit →
        (searchRoutesFromDB db kw page limit).1.routes = []) := by
  intro db kw page limit
  refine ⟨?_, ?_, ?_, ?_, ?_⟩
  · unfold searchRoutesFromDB
    by_cases h : (db.routes.filter (searchPred kw)).length = 0
    · simp [h]
    · simp [h]
  · intro h
    simp [searchRoutesFromDB, h]
  · intro h
    unfold searchRoutesFromDB
    simp [Nat.pos_iff_ne_zero.mp h]
  · intro K hK
    rw [searchRoutes_sum_pages]
    omega
  · intro h
    have := searchRoutes_page_length db kw page limit
    rw [Nat.sub_eq_zero_of_le h, Nat.min_zero] at this
    exact List.length_eq_zero.mp this

/-- Witness for C1 at a concrete two-route store: the empty keyword
matches both rows; with page size 1 the first two pages sum to the
total; page 5 is empty; an unmatched keyword short-circuits. -/
theorem c1_search_total_and_pagination_witness :
    (searchRoutesFromDB demoDb2 "" 1 20).1.total =
      (demoDb2.routes.filter (searchPred "")).length ∧
    (∑ p ∈ Finset.range 2,
      ((searchRoutesFromDB demoDb2 "" (p + 1) 1).1.routes).length =
      (demoDb2.routes.filter (searchPred "")).length) ∧
    (searchRoutesFromDB demoDb2 "" 5 1).1.routes = [] ∧
    searchRoutesFromDB demoDb2 "nomatch" 1 20 =
      ({ routes := [], total := 0, page := 1, limit := 20 }, false) ∧
    (searchRoutesFromDB demoDb2 "beta" 1 20).2 = true := by
  refine ⟨(c1_search_total_and_pagination demoDb2 "" 1 20).1,
    (c1_search_total_and_pagination demoDb2 "" 1 1).2.2.2.1 2 (by decide),
    (c1_search_total_and_pagination demoDb2 "" 5 1).2.2.2.2 (by decide),
    (c1_search_total_and_pagination demoDb2 "nomatch" 1 20).2.1 (by decide),
    (c1_search_total_and_pagination demoDb2 "beta" 1 20).2.2.1 (by decide)⟩

end RoutePlanner
